import Mathlib

/-!
Shallow embedding of `gemini_simple.py`: the fallback text-transformation
engine (`get_smart_fallback` with its lookup tables), the response cache
(`RESPONSE_CACHE`, `get_cached_response` with its `lru_cache` memoization,
`save_to_cache`), and the call/fallback orchestration (`call_gemini_api`,
`try_with_module`, `try_fallback_with_module`).

Python strings are modelled as Lean `String` (a packed `List Char` at this
toolchain version); every Python string operation used by the program is
defined below directly on the character list, mirroring CPython semantics
for the ASCII inputs the program manipulates.
-/

namespace GeminiSimple

/-- Python `str.lower()`: lowercase every character (ASCII-faithful). -/
def pyLower (s : String) : String := ⟨s.data.map Char.toLower⟩

/-- Characters stripped by Python `str.strip()` (whitespace). -/
def pySpace (c : Char) : Bool :=
  c == ' ' || c == '\t' || c == '\n' || c == '\r' || c == '\x0b' || c == '\x0c'

/-- Python `str.strip()`: drop whitespace from both ends. -/
def pyStrip (s : String) : String :=
  ⟨((s.data.dropWhile pySpace).reverse.dropWhile pySpace).reverse⟩

/-- Python `s.startswith(p)`. -/
def pyStartsWith (s p : String) : Bool := p.data.isPrefixOf s.data

/-- Python `sub in s` (substring containment). -/
def pyContains (s sub : String) : Bool := s.data.tails.any (fun t => sub.data.isPrefixOf t)

/-- Python `s[n:]` (slice from character index `n`). -/
def pyDrop (s : String) (n : Nat) : String := ⟨s.data.drop n⟩

/-- Replace every non-overlapping occurrence of `sub` by `rep`, left to right,
as Python `str.replace` does. The `Nat` argument is fuel bounding the
recursion by the input length (each step consumes at least one character),
keeping the definition structurally recursive. -/
def replaceFuel (sub rep : List Char) : Nat → List Char → List Char
  | 0, l => l
  | _ + 1, [] => []
  | n + 1, c :: cs =>
    if sub ≠ [] ∧ sub.isPrefixOf (c :: cs) then
      rep ++ replaceFuel sub rep n ((c :: cs).drop sub.length)
    else
      c :: replaceFuel sub rep n cs

/-- Python `s.replace(sub, rep)` (for the non-empty patterns the program uses). -/
def pyReplace (s sub rep : String) : String :=
  ⟨replaceFuel sub.data rep.data s.data.length s.data⟩

/-- The normalization `text.lower().strip()` applied before matching and caching. -/
def normalize (s : String) : String := pyStrip (pyLower s)

/-- Model of `random.choice(l)`: an arbitrary index `k` is reduced modulo the
length, so that over all `k` exactly the members of `l` are selectable. -/
def choose (k : Nat) (l : List String) : String := l.getD (k % l.length) ""

/-- Python dict lookup `d[key]` / `key in d` on an association list (first
binding wins, matching dict semantics where keys are unique). -/
def dictFind? {α : Type} (d : List (String × α)) (key : String) : Option α :=
  (d.find? (fun p => p.1 == key)).map Prod.snd

/-- The `COMMON_TRANSFORMATIONS` table, in source (insertion) order. -/
def COMMON_TRANSFORMATIONS : List (String × List String) :=
  [ ("please share your thoughts",
      [ "I would appreciate your insights on this matter.",
        "Could you please provide your perspective on this topic?",
        "Your input would be valuable in this discussion.",
        "I welcome your feedback on this subject." ]),
    ("what do you think",
      [ "What are your thoughts on this?",
        "I'd appreciate your perspective on this matter.",
        "May I ask for your professional opinion on this?" ]),
    ("i don't like this",
      [ "I have some concerns about this approach.",
        "I'd like to suggest an alternative solution.",
        "This approach may benefit from some adjustments." ]),
    ("this is stupid",
      [ "I believe this approach could be reconsidered.",
        "I have some reservations about the effectiveness of this strategy.",
        "This solution might not be optimal for our objectives." ]),
    ("i'm angry about",
      [ "I'm concerned about",
        "I feel strongly regarding",
        "I'd like to address my concerns about" ]),
    ("that's not my job",
      [ "This falls outside my current responsibilities.",
        "This may require expertise from another department.",
        "This task might align better with a different team's objectives." ]),
    ("i quit",
      [ "I would like to tender my resignation.",
        "I've decided to pursue opportunities elsewhere.",
        "I am giving my notice of resignation." ]) ]

/-- The `INFO_FALLBACKS` table, in source (insertion) order. -/
def INFO_FALLBACKS : List (String × String) :=
  [ ("what is", "I'm inquiring about"),
    ("who is", "I'm seeking information regarding"),
    ("where is", "Could you provide information on the location of"),
    ("when is", "I'd like to know the timing of"),
    ("why is", "I'm interested in understanding the reason behind"),
    ("how to", "Could you provide guidance on how to") ]

/-- The fallback transformer `get_smart_fallback(text)`. `k` models the
single `random.choice` draw an invocation can make; `normalize text` is the
source's `text_lower`. -/
def get_smart_fallback (k : Nat) (text : String) : String :=
  match dictFind? COMMON_TRANSFORMATIONS (normalize text) with
  | some responses => choose k responses
  | none =>
  match COMMON_TRANSFORMATIONS.find?
      (fun p => pyContains (normalize text) p.1 || pyContains p.1 (normalize text)) with
  | some p => choose k p.2
  | none =>
  match INFO_FALLBACKS.find? (fun p => pyStartsWith (normalize text) p.1) with
  | some p => p.2 ++ " " ++ pyStrip (pyDrop text p.1.length) ++ "."
  | none =>
  if ["i need", "i want", "give me"].any (fun w => pyContains (normalize text) w) then
    "I would like to request " ++
      pyStrip (pyReplace (pyReplace (pyReplace (normalize text) "i need" "") "i want" "") "give me" "") ++ "."
  else if ["not good", "bad", "terrible", "awful"].any (fun w => pyContains (normalize text) w) then
    "I believe there may be room for improvement regarding " ++
      pyStrip (pyReplace (pyReplace (pyReplace (pyReplace (normalize text) "not good" "") "bad" "") "terrible" "") "awful" "") ++ "."
  else if pyContains text "?" then
    "I would appreciate your insights on " ++ text
  else
    "I would like to professionally communicate: " ++ text

/-- Mutable module state: the global `RESPONSE_CACHE` dict (keys already
normalized), and the `functools.lru_cache` memo table wrapped around
`get_cached_response`, keyed by the raw (unnormalized) argument string. The
memo is exact for runs with at most 100 distinct raw lookups (the decorator's
`maxsize`), before any LRU eviction can occur. -/
structure AppState where
  RESPONSE_CACHE : List (String × String)
  memo : List (String × Option String)
  deriving DecidableEq

/-- The `@lru_cache` wrapped `get_cached_response(text)`: on a memo hit the
memoized value is returned unchanged; otherwise `RESPONSE_CACHE.get(text.lower().strip())`
is computed and recorded in the memo under the raw `text`. Returns the value
together with the updated state. -/
def get_cached_response (st : AppState) (text : String) : Option String × AppState :=
  match st.memo.find? (fun p => p.1 == text) with
  | some p => (p.2, st)
  | none =>
    let v := dictFind? st.RESPONSE_CACHE (normalize text)
    (v, { st with memo := (text, v) :: st.memo })

/-- Mutation `RESPONSE_CACHE[text.lower().strip()] = response` (newest binding
shadows any older one, as dict assignment does). -/
def save_to_cache (st : AppState) (text response : String) : AppState :=
  { st with RESPONSE_CACHE := (normalize text, response) :: st.RESPONSE_CACHE }

/-- Outcome of one remote `generate_content` call: an exception, or a response
whose `.text` field is the given string (possibly empty). -/
inductive Remote where
  | err : Remote
  | ok : String → Remote
  deriving DecidableEq

/-- Python truthiness of `response.text` for a remote outcome: an exception or
an empty text is falsy. -/
def truthyR : Remote → Bool
  | .err => false
  | .ok s => s ≠ ""

/-- The raw `.text` of a remote outcome (unused on `err`). -/
def textOf : Remote → String
  | .err => ""
  | .ok s => s

/-- Python truthiness of the value returned by the cache lookup. -/
def truthy : Option String → Bool
  | none => false
  | some s => s ≠ ""

/-- `try_fallback_with_module(text)`: the secondary (gemini-pro) attempt. A
non-empty `.text` is returned stripped; an exception or empty text falls
through to `get_smart_fallback`. -/
def try_fallback_with_module (r2 : Remote) (k : Nat) (text : String) : String :=
  match r2 with
  | .err => get_smart_fallback k text
  | .ok s => if s ≠ "" then pyStrip s else get_smart_fallback k text

/-- `try_with_module(text)`: the primary (gemini-2.0-flash) attempt. A
non-empty `.text` is returned stripped; an exception or empty text falls
through to `try_fallback_with_module`. -/
def try_with_module (r1 r2 : Remote) (k : Nat) (text : String) : String :=
  match r1 with
  | .err => try_fallback_with_module r2 k text
  | .ok s => if s ≠ "" then pyStrip s else try_fallback_with_module r2 k text

/-- Number of remote `generate_content` invocations one pass through
`try_with_module` performs: the secondary model is consulted exactly when the
primary outcome is falsy. -/
def remote_calls_of (r1 : Remote) : Nat :=
  match r1 with
  | .err => 2
  | .ok s => if s ≠ "" then 1 else 2

/-- The orchestrator `call_gemini_api(text, api_key)` (the spec's
`Orchestrator.resolve`), with the remote capability's behaviour for this call
given by `r1` (primary) and `r2` (secondary). Returns the produced text, the
updated state, and how many remote invocations were made. -/
def call_gemini_api (text : String) (r1 r2 : Remote) (k : Nat) (st : AppState) :
    String × AppState × Nat :=
  let res := get_cached_response st text
  if truthy res.1 then (res.1.getD "", res.2, 0)
  else
    let response := try_with_module r1 r2 k text
    let st2 := if response ≠ "" then save_to_cache res.2 text response else res.2
    (response, st2, remote_calls_of r1)

/-! Helper lemmas shared by the claim theorems. -/

/-- Every `COMMON_TRANSFORMATIONS` entry has a non-empty list of alternatives,
each of which is a non-empty string. -/
theorem common_table_ok :
    ∀ p ∈ COMMON_TRANSFORMATIONS, p.2 ≠ [] ∧ ∀ r ∈ p.2, r ≠ "" := by decide

/-- Every `INFO_FALLBACKS` replacement is a non-empty string. -/
theorem info_table_ok : ∀ p ∈ INFO_FALLBACKS, p.2 ≠ "" := by decide

/-- The modelled `random.choice` always picks a member of a non-empty list. -/
theorem choose_mem (k : Nat) {l : List String} (h : l ≠ []) : choose k l ∈ l := by
  have hl : 0 < l.length := List.length_pos.mpr h
  have hk : k % l.length < l.length := Nat.mod_lt _ hl
  unfold choose
  rw [List.getD_eq_getElem l "" hk]
  exact List.getElem_mem hk

/-- Appending to a non-empty string yields a non-empty string. -/
theorem str_append_ne_left (a b : String) (h : a ≠ "") : a ++ b ≠ "" := by
  intro hc
  apply h
  cases a with
  | mk la =>
    cases b with
    | mk lb =>
      have hd : la ++ lb = ([] : List Char) := congrArg String.data hc
      have hla : la = [] := (List.append_eq_nil.mp hd).1
      subst hla
      rfl

/-- A successful dict lookup comes from a binding present in the list. -/
theorem dictFind?_mem {α : Type} {d : List (String × α)} {key : String} {v : α}
    (h : dictFind? d key = some v) : ∃ p, p ∈ d ∧ p.2 = v := by
  unfold dictFind? at h
  cases hfind : d.find? (fun p => p.1 == key) with
  | none => rw [hfind] at h; exact absurd h (by simp)
  | some q =>
    rw [hfind] at h
    exact ⟨q, List.mem_of_find?_eq_some hfind, by simpa using h⟩

/-- A random choice among any table entry's alternatives is non-empty. -/
theorem mem_table_choose_ne {p : String × List String} (k : Nat)
    (hp : p ∈ COMMON_TRANSFORMATIONS) : choose k p.2 ≠ "" := by
  obtain ⟨hne, hall⟩ := common_table_ok p hp
  exact hall _ (choose_mem k hne)

/-- Totality of the fallback transformer: every branch produces a non-empty
string, for every input (empty input included) and every random draw. -/
theorem get_smart_fallback_ne_empty (k : Nat) (text : String) :
    get_smart_fallback k text ≠ "" := by
  unfold get_smart_fallback
  split
  next responses heq =>
    obtain ⟨p, hp, hv⟩ := dictFind?_mem heq
    exact hv ▸ mem_table_choose_ne k hp
  next =>
    split
    next p heq => exact mem_table_choose_ne k (List.mem_of_find?_eq_some heq)
    next =>
      split
      next p heq =>
        exact str_append_ne_left _ _ (str_append_ne_left _ _
          (str_append_ne_left _ _ (info_table_ok p (List.mem_of_find?_eq_some heq))))
      next =>
        split
        next => exact str_append_ne_left _ _ (str_append_ne_left _ _ (by decide))
        next =>
          split
          next => exact str_append_ne_left _ _ (str_append_ne_left _ _ (by decide))
          next =>
            split
            next => exact str_append_ne_left _ _ (by decide)
            next => exact str_append_ne_left _ _ (by decide)

/-- When both remote outcomes are falsy (exception or empty text), the attempt
chain lands on the fallback transformer. -/
theorem try_with_module_falsy (r1 r2 : Remote) (k : Nat) (t : String)
    (h1 : truthyR r1 = false) (h2 : truthyR r2 = false) :
    try_with_module r1 r2 k t = get_smart_fallback k t := by
  cases r1 with
  | err =>
    cases r2 with
    | err => rfl
    | ok s =>
      simp only [truthyR, decide_eq_false_iff_not, ne_eq, not_not] at h2
      simp [try_with_module, try_fallback_with_module, h2]
  | ok s =>
    simp only [truthyR, decide_eq_false_iff_not, ne_eq, not_not] at h1
    cases r2 with
    | err => simp [try_with_module, try_fallback_with_module, h1]
    | ok u =>
      simp only [truthyR, decide_eq_false_iff_not, ne_eq, not_not] at h2
      simp [try_with_module, try_fallback_with_module, h1, h2]

/-- Reading through the memoized cache never changes `RESPONSE_CACHE`. -/
theorem get_cached_response_cache_eq (st : AppState) (t : String) :
    (get_cached_response st t).2.RESPONSE_CACHE = st.RESPONSE_CACHE := by
  unfold get_cached_response
  split <;> rfl

/-! Claim theorems. -/

/-- Claim C1 (failing evaluation). The claim states that after a first
`resolve(t)` succeeds via the remote call, a second `resolve(t)` makes no
remote call and returns the cached value. Evaluating the code: from the empty
state, the first call on `"hello"` returns `"X"` (one remote call) and stores
it in `RESPONSE_CACHE`; yet the second call with the identical raw string
makes a remote call again (the `lru_cache` memo replays the earlier miss,
shadowing the intervening cache write) and returns the fresh remote answer
`"Y"`, not the stored `"X"`. -/
theorem claim_C1_second_call_remotes_again :
    (call_gemini_api "hello" (.ok "X") (.ok "X") 0 ⟨[], []⟩).1 = "X" ∧
    (call_gemini_api "hello" (.ok "X") (.ok "X") 0 ⟨[], []⟩).2.1.RESPONSE_CACHE =
      [("hello", "X")] ∧
    (call_gemini_api "hello" (.ok "Y") (.ok "Y") 0
        (call_gemini_api "hello" (.ok "X") (.ok "X") 0 ⟨[], []⟩).2.1).2.2 = 1 ∧
    (call_gemini_api "hello" (.ok "Y") (.ok "Y") 0
        (call_gemini_api "hello" (.ok "X") (.ok "X") 0 ⟨[], []⟩).2.1).1 = "Y" := by decide

/-- Claim C2 (counterexample). The claim states that when both remote attempts
fail and `resolve` returns the fallback transformer's output, the response
cache is left unchanged. Evaluating the code from the empty state on `"zzz"`
with both attempts erroring: the fallback output is returned, and it has been
written into `RESPONSE_CACHE`. -/
theorem claim_C2_counterexample :
    (call_gemini_api "zzz" .err .err 0 ⟨[], []⟩).1 =
      "I would like to professionally communicate: zzz" ∧
    (call_gemini_api "zzz" .err .err 0 ⟨[], []⟩).2.1.RESPONSE_CACHE =
      [("zzz", "I would like to professionally communicate: zzz")] := by decide

/-- Claim C2 (amended). When both remote attempts fail (error or empty) and
the cache lookup missed, `resolve` returns the fallback transformer's output
and DOES write it to the response cache under the normalized key: the code
caches any non-empty result of the attempt chain, fallback-sourced results
included. -/
theorem claim_C2_fallback_is_cached (t : String) (r1 r2 : Remote) (k : Nat) (st : AppState)
    (h1 : truthyR r1 = false) (h2 : truthyR r2 = false)
    (hmiss : truthy (get_cached_response st t).1 = false) :
    (call_gemini_api t r1 r2 k st).1 = get_smart_fallback k t ∧
    (call_gemini_api t r1 r2 k st).2.1.RESPONSE_CACHE =
      (normalize t, get_smart_fallback k t) :: st.RESPONSE_CACHE := by
  unfold call_gemini_api
  simp only [hmiss, Bool.false_eq_true, if_false]
  rw [try_with_module_falsy r1 r2 k t h1 h2, if_pos (get_smart_fallback_ne_empty k t)]
  exact ⟨rfl, by simp [save_to_cache, get_cached_response_cache_eq]⟩

/-- Claim C2 (witness for the amended theorem), at `t = "ugh"` with both
attempts erroring from the empty state. -/
theorem claim_C2_witness :
    (truthyR .err = false ∧ truthy (get_cached_response ⟨[], []⟩ "ugh").1 = false) ∧
    (call_gemini_api "ugh" .err .err 0 ⟨[], []⟩).2.1.RESPONSE_CACHE =
      (normalize "ugh", get_smart_fallback 0 "ugh") :: (⟨[], []⟩ : AppState).RESPONSE_CACHE :=
  ⟨⟨by decide, by decide⟩,
    (claim_C2_fallback_is_cached "ugh" .err .err 0 ⟨[], []⟩ (by decide) (by decide) (by decide)).2⟩

/-- Claim C3. For every non-empty input `t` and every random draw `k`, the
fallback transformer `get_smart_fallback` returns a non-empty string: every
one of its eight rules produces output with a non-empty fixed prefix. -/
theorem claim_C3_fallback_totality (t : String) (k : Nat) (_h : t ≠ "") :
    get_smart_fallback k t ≠ "" :=
  get_smart_fallback_ne_empty k t

/-- Claim C3 witness at `t = "hm ok"`, `k = 0`. -/
theorem claim_C3_witness : ("hm ok" : String) ≠ "" ∧ get_smart_fallback 0 "hm ok" ≠ "" :=
  ⟨by decide, claim_C3_fallback_totality "hm ok" 0 (by decide)⟩

/-- Claim C4. For every input `t` whose normalization is a key of
`COMMON_TRANSFORMATIONS` and every choice `k` of the random selector, the
fallback transformer returns one of that key's listed alternatives. -/
theorem claim_C4_exact_match (t : String) (k : Nat) (rs : List String)
    (h : dictFind? COMMON_TRANSFORMATIONS (normalize t) = some rs) :
    get_smart_fallback k t ∈ rs := by
  obtain ⟨p, hp, hv⟩ := dictFind?_mem h
  unfold get_smart_fallback
  rw [h]
  exact choose_mem k (hv ▸ (common_table_ok p hp).1)

/-- Claim C4 witness: `"i quit"` normalizes to the resignation key, and the
output (here at draw `k = 2`) is one of its three listed phrasings. -/
theorem claim_C4_witness :
    dictFind? COMMON_TRANSFORMATIONS (normalize "i quit") =
      some [ "I would like to tender my resignation.",
             "I've decided to pursue opportunities elsewhere.",
             "I am giving my notice of resignation." ] ∧
    get_smart_fallback 2 "i quit" ∈
      [ "I would like to tender my resignation.",
        "I've decided to pursue opportunities elsewhere.",
        "I am giving my notice of resignation." ] :=
  ⟨by decide,
    claim_C4_exact_match "i quit" 2
      [ "I would like to tender my resignation.",
        "I've decided to pursue opportunities elsewhere.",
        "I am giving my notice of resignation." ] (by decide)⟩

/-- Claim C5. For every input `t` matching no exact and no partial table entry
whose normalization starts with an `INFO_FALLBACKS` key (first match in the
table's fixed order, found as `pr`), the output is the replacement, a space,
the original-cased text after the prefix trimmed, and a trailing period. -/
theorem claim_C5_prefix_rewrite (t : String) (k : Nat) (pr : String × String)
    (h1 : dictFind? COMMON_TRANSFORMATIONS (normalize t) = none)
    (h2 : COMMON_TRANSFORMATIONS.find?
        (fun p => pyContains (normalize t) p.1 || pyContains p.1 (normalize t)) = none)
    (h3 : INFO_FALLBACKS.find? (fun p => pyStartsWith (normalize t) p.1) = some pr) :
    get_smart_fallback k t = pr.2 ++ " " ++ pyStrip (pyDrop t pr.1.length) ++ "." := by
  unfold get_smart_fallback
  rw [h1, h2, h3]

/-- Claim C5 witness: `"what is the project status"` yields exactly
`"I'm inquiring about the project status."`. -/
theorem claim_C5_witness :
    INFO_FALLBACKS.find?
        (fun p => pyStartsWith (normalize "what is the project status") p.1) =
      some ("what is", "I'm inquiring about") ∧
    get_smart_fallback 0 "what is the project status" =
      "I'm inquiring about the project status." :=
  ⟨by decide,
    (claim_C5_prefix_rewrite "what is the project status" 0 ("what is", "I'm inquiring about")
        (by decide) (by decide) (by decide)).trans (by decide)⟩

/-- Claim C6 (failing evaluation). The claim states that a value stored under
`s` is returned by a lookup of any `t` with the same normalization. Evaluating
the code with `s = t = "I QUIT"`: after a first (missing) lookup of `t`,
storing `"X"` under `s` does place it in `RESPONSE_CACHE` under the normalized
key, yet the subsequent lookup of `t` still returns the memoized absent, not
`"X"`. -/
theorem claim_C6_memo_shadows_store :
    (get_cached_response ⟨[], []⟩ "I QUIT").1 = none ∧
    dictFind?
        (save_to_cache (get_cached_response ⟨[], []⟩ "I QUIT").2 "I QUIT" "X").RESPONSE_CACHE
        (normalize "I QUIT") = some "X" ∧
    (get_cached_response
        (save_to_cache (get_cached_response ⟨[], []⟩ "I QUIT").2 "I QUIT" "X") "I QUIT").1 =
      none := by decide

/-- Claim C7. For every input `t` matching no exact, partial, or prefix table
entry whose normalization contains one of `"i need"`, `"i want"`, `"give me"`,
the output is `"I would like to request "` followed by the normalized text
with all three literal substrings removed and trimmed, and a trailing
period. -/
theorem claim_C7_request_phrase (t : String) (k : Nat)
    (h1 : dictFind? COMMON_TRANSFORMATIONS (normalize t) = none)
    (h2 : COMMON_TRANSFORMATIONS.find?
        (fun p => pyContains (normalize t) p.1 || pyContains p.1 (normalize t)) = none)
    (h3 : INFO_FALLBACKS.find? (fun p => pyStartsWith (normalize t) p.1) = none)
    (h4 : (["i need", "i want", "give me"].any (fun w => pyContains (normalize t) w)) = true) :
    get_smart_fallback k t =
      "I would like to request " ++
        pyStrip (pyReplace (pyReplace (pyReplace (normalize t) "i need" "") "i want" "")
          "give me" "") ++ "." := by
  unfold get_smart_fallback
  rw [h1, h2, h3, if_pos h4]

/-- Claim C7 witness: `"I need more time"` yields exactly
`"I would like to request more time."`. -/
theorem claim_C7_witness :
    (["i need", "i want", "give me"].any
        (fun w => pyContains (normalize "I need more time") w)) = true ∧
    get_smart_fallback 0 "I need more time" = "I would like to request more time." :=
  ⟨by decide,
    (claim_C7_request_phrase "I need more time" 0
        (by decide) (by decide) (by decide) (by decide)).trans (by decide)⟩

/-- Claim C8. For every input `t` on which rules 1 through 6 all fail (no
exact, partial, or prefix table match, no request phrase, no
negative-sentiment word) and whose original text contains a question mark, the
output is `"I would appreciate your insights on "` followed by the original
text, casing preserved and nothing appended. -/
theorem claim_C8_question_heuristic (t : String) (k : Nat)
    (h1 : dictFind? COMMON_TRANSFORMATIONS (normalize t) = none)
    (h2 : COMMON_TRANSFORMATIONS.find?
        (fun p => pyContains (normalize t) p.1 || pyContains p.1 (normalize t)) = none)
    (h3 : INFO_FALLBACKS.find? (fun p => pyStartsWith (normalize t) p.1) = none)
    (h4 : (["i need", "i want", "give me"].any (fun w => pyContains (normalize t) w)) = false)
    (h5 : (["not good", "bad", "terrible", "awful"].any
        (fun w => pyContains (normalize t) w)) = false)
    (h6 : pyContains t "?" = true) :
    get_smart_fallback k t = "I would appreciate your insights on " ++ t := by
  unfold get_smart_fallback
  rw [h1, h2, h3, if_neg (by simp [h4]), if_neg (by simp [h5]), if_pos h6]

/-- Claim C8 witness: `"Is this approved?"` yields exactly
`"I would appreciate your insights on Is this approved?"`. -/
theorem claim_C8_witness :
    pyContains "Is this approved?" "?" = true ∧
    get_smart_fallback 0 "Is this approved?" =
      "I would appreciate your insights on Is this approved?" :=
  ⟨by decide,
    (claim_C8_question_heuristic "Is this approved?" 0
        (by decide) (by decide) (by decide) (by decide) (by decide) (by decide)).trans
      (by decide)⟩

/-- Claim C9. On a cache miss, `call_gemini_api` never propagates a remote
failure (in the model, both failure modes are values of `Remote`, and the
orchestrator is a total function into `String`): each falsy outcome advances
the chain, so the produced text is the stripped primary text when the primary
outcome is truthy, else the stripped secondary text when that one is truthy,
else the fallback transformer's output. -/
theorem claim_C9_error_containment (t : String) (r1 r2 : Remote) (k : Nat) (st : AppState)
    (hmiss : truthy (get_cached_response st t).1 = false) :
    (call_gemini_api t r1 r2 k st).1 =
      (if truthyR r1 then pyStrip (textOf r1)
       else if truthyR r2 then pyStrip (textOf r2)
       else get_smart_fallback k t) := by
  unfold call_gemini_api
  simp only [hmiss, Bool.false_eq_true, if_false]
  cases r1 with
  | err =>
    cases r2 with
    | err => rfl
    | ok s =>
      by_cases hs : s = "" <;>
        simp [try_with_module, try_fallback_with_module, truthyR, textOf, hs]
  | ok s =>
    by_cases hs : s = "" <;>
      cases r2 with
      | err => simp [try_with_module, try_fallback_with_module, truthyR, textOf, hs]
      | ok u =>
        by_cases hu : u = "" <;>
          simp [try_with_module, try_fallback_with_module, truthyR, textOf, hs, hu]

/-- Claim C9 witness: primary raises, secondary returns `" Certainly. "`, so
`resolve` returns the stripped secondary text. -/
theorem claim_C9_witness :
    truthy (get_cached_response ⟨[], []⟩ "hi").1 = false ∧
    (call_gemini_api "hi" .err (.ok " Certainly. ") 0 ⟨[], []⟩).1 = "Certainly." :=
  ⟨by decide,
    (claim_C9_error_containment "hi" .err (.ok " Certainly. ") 0 ⟨[], []⟩
        (by decide)).trans (by decide)⟩

/-- Claim C10. If the memo already records an absent result for the raw string
`t`, then `get_cached_response` returns absent for `t`, and still does so
after `save_to_cache s r` stores a value (for any `s`, `r`) — while the very
same stored value is visible to any raw string `u` that was never looked up
and shares `s`'s normalization. -/
theorem claim_C10_memoized_absent (st : AppState) (t s r u : String)
    (h1 : (st.memo.find? (fun p => p.1 == t)).map Prod.snd = some none)
    (h2 : st.memo.find? (fun p => p.1 == u) = none)
    (h3 : normalize u = normalize s) :
    (get_cached_response st t).1 = none ∧
    (get_cached_response (save_to_cache st s r) t).1 = none ∧
    (get_cached_response (save_to_cache st s r) u).1 = some r := by
  cases hfind : st.memo.find? (fun p => p.1 == t) with
  | none => rw [hfind] at h1; exact absurd h1 (by simp)
  | some q =>
    rw [hfind] at h1
    have hq : q.2 = none := by simpa using h1
    refine ⟨?_, ?_, ?_⟩
    · unfold get_cached_response
      rw [hfind]
      exact hq
    · unfold get_cached_response
      simp only [save_to_cache]
      rw [hfind]
      exact hq
    · unfold get_cached_response
      simp only [save_to_cache]
      rw [h2]
      simp [dictFind?, List.find?_cons, h3]

/-- Claim C10 witness: after a memoized miss for `"i quit"`, storing `"X"`
under `"i quit"` stays invisible to `"i quit"` itself but is returned for the
never-looked-up variant `"I QUIT"`. -/
theorem claim_C10_witness :
    (((⟨[], [("i quit", none)]⟩ : AppState).memo.find?
          (fun p => p.1 == "i quit")).map Prod.snd = some none ∧
      (⟨[], [("i quit", none)]⟩ : AppState).memo.find? (fun p => p.1 == "I QUIT") = none ∧
      normalize "I QUIT" = normalize "i quit") ∧
    (get_cached_response ⟨[], [("i quit", none)]⟩ "i quit").1 = none ∧
    (get_cached_response
        (save_to_cache ⟨[], [("i quit", none)]⟩ "i quit" "X") "i quit").1 = none ∧
    (get_cached_response
        (save_to_cache ⟨[], [("i quit", none)]⟩ "i quit" "X") "I QUIT").1 = some "X" :=
  ⟨⟨by decide, by decide, by decide⟩,
    claim_C10_memoized_absent ⟨[], [("i quit", none)]⟩ "i quit" "i quit" "X" "I QUIT"
      (by decide) (by decide) (by decide)⟩

end GeminiSimple
